import Mathlib

/-!
Verification of the Qubit-Quests computation orchestration core.

Shallow embedding of the backend sources:
  * `backend/engine.py` : `get_backend`, `run_vqe_calculation`
  * `backend/app.py`    : `dissociation_calculation_thread`,
                          `get_dissociation_results`, the progress queue and the
                          process-wide last-result slot (`app.state.dissociation_result`)
  * `qbit.py`           : `compute_min_ground_state_energy`

The external collaborators (PySCF electronic-structure driver, the Aer
simulator / IBM cloud devices, the VQE and exact eigensolvers) are modelled as
oracle functions bundled into a `World`; the embedding reproduces exactly the
control flow, the branching on names, the ordering of effects, and the
arithmetic performed by the Python code on the oracle outputs.  Machine floats
are idealised as rationals.
-/

namespace QubitQuests

/-- Error taxonomy of the engine, one constructor per distinct `raise` site:
`ValueError("Unsupported molecule.")`, the `ConnectionError` raised when
`IBM_QUANTUM_TOKEN` is unset, the `ConnectionError` raised when the provider
lookup fails, and a failure of the external PySCF driver. -/
inductive EngineError
  | unsupportedMolecule
  | credentialMissing
  | connectionFailed
  | geometryError
  deriving DecidableEq, Repr

/-- The value returned by `get_backend`: either the local `AerSimulator()` or a
remote device handle obtained from `IBMProvider`. -/
inductive Backend
  | aerSimulator
  | ibmBackend (device : String)
  deriving DecidableEq, Repr

/-- The atom geometry strings built by the sources, one constructor per
f-string shape: `engine.py` builds `"H 0 0 0; H 0 0 {bl}"` for H2 and
`"Li 0 0 0; H 0 0 {bl}"` for LiH; `qbit.py` additionally builds
`"H 0 0 0; F 0 0 {bl}"` for HF and `"O 0 0 0; H 0 0 {bl}; H 0.76 0.58 0"`
for H2O. -/
inductive AtomGeom
  | h2 (bl : ℚ)
  | lih (bl : ℚ)
  | hf (bl : ℚ)
  | h2o (bl : ℚ)
  deriving DecidableEq, Repr

/-- Oracles for everything outside the orchestration core: the process
environment (`IBM_QUANTUM_TOKEN`), the reachability of remote IBM devices, and
the outputs of the external chemistry/eigensolver libraries, keyed by the atom
geometry and (lower-cased) basis handed to them by `run_vqe_calculation`. -/
structure World where
  token : Option String
  remoteAvailable : String → String → Bool
  pyscfOk : AtomGeom → String → Bool
  nuclearRepulsion : AtomGeom → String → ℚ
  vqeEigenvalue : AtomGeom → String → ℚ
  exactEigenvalue : AtomGeom → String → ℚ
  convergenceHistory : AtomGeom → String → List ℚ
  qubitCount : AtomGeom → String → Nat
  pauliTermCount : AtomGeom → String → Nat
  circuitDepth : AtomGeom → String → Nat
  wallTime : AtomGeom → String → ℚ

/-- Embedding of `engine.get_backend` (engine.py lines 25-51).  The literal
`'simulator'` returns `AerSimulator()` with no environment access; any other
name reads `IBM_QUANTUM_TOKEN` and raises if it is unset, then attempts the
provider lookup and raises `ConnectionFailed` if it cannot be served. -/
def get_backend (w : World) (backend_name : String) : Except EngineError Backend :=
  if backend_name = "simulator" then
    .ok .aerSimulator
  else
    match w.token with
    | none => .error .credentialMissing
    | some tok =>
      if w.remoteAvailable tok backend_name then .ok (.ibmBackend backend_name)
      else .error .connectionFailed

/-- Observable effects performed by `run_vqe_calculation`, in source order, used
to state where in the protocol a failure happens. -/
inductive Effect
  | resolveBackend (backend_name : String)
  | buildGeometry (geom : AtomGeom)
  | runDriver (geom : AtomGeom) (basis : String)
  | transformProblem
  | mapHamiltonian
  | solveExact
  | solveVQE
  deriving DecidableEq, Repr

/-- The molecule branch of `run_vqe_calculation` (engine.py lines 66-76): maps
the molecule name to its atom geometry and active-space parameters
(electrons, spatial orbitals), or `none` for the
`raise ValueError("Unsupported molecule.")` branch. -/
def moleculeSetup (molecule_name : String) (bond_length : ℚ) :
    Option (AtomGeom × Nat × Nat) :=
  if molecule_name = "H2" then some (.h2 bond_length, 2, 2)
  else if molecule_name = "LiH" then some (.lih bond_length, 2, 5)
  else none

/-- The `"diagnostics"` sub-dictionary of the result of `run_vqe_calculation`. -/
structure Diagnostics where
  qubits : Nat
  pauliTerms : Nat
  circuitDepth : Nat
  evaluations : Nat
  execution_time_sec : ℚ
  deriving DecidableEq, Repr

/-- The result dictionary built by `run_vqe_calculation` (engine.py
lines 127-132). -/
structure VqeResults where
  energy : ℚ
  exact_energy : ℚ
  convergence : List ℚ
  error_mHa : ℚ
  diagnostics : Diagnostics
  deriving DecidableEq, Repr

/-- Embedding of `engine.run_vqe_calculation` (engine.py lines 53-138),
returning the result (or the raised error) together with the ordered trace of
effects.  Faithful to source order: the backend is resolved first, then the
molecule branch selects geometry and active space, then the PySCF driver runs
on the geometry and lower-cased basis, then transform/map/ansatz, then the
exact classical solve and the VQE solve, and finally the result dictionary
combines the eigenvalues with the nuclear repulsion offset and sets
`error_mHa = abs(total_vqe - total_exact) * 1000`. -/
def run_vqe_calculation (w : World) (molecule_name : String) (bond_length : ℚ)
    (basis : String) (backend_name : String) :
    Except EngineError VqeResults × List Effect :=
  match get_backend w backend_name with
  | .error e => (.error e, [.resolveBackend backend_name])
  | .ok _backend =>
    match moleculeSetup molecule_name bond_length with
    | none => (.error .unsupportedMolecule, [.resolveBackend backend_name])
    | some (geom, _num_electrons, _num_orbitals) =>
      let b := basis.toLower
      if w.pyscfOk geom b then
        let history := w.convergenceHistory geom b
        let total_vqe_energy := w.vqeEigenvalue geom b + w.nuclearRepulsion geom b
        let total_exact_energy := w.exactEigenvalue geom b + w.nuclearRepulsion geom b
        let error := |total_vqe_energy - total_exact_energy| * 1000
        (.ok
          { energy := total_vqe_energy
            exact_energy := total_exact_energy
            convergence := history
            error_mHa := error
            diagnostics :=
              { qubits := w.qubitCount geom b
                pauliTerms := w.pauliTermCount geom b
                circuitDepth := w.circuitDepth geom b
                evaluations := history.length
                execution_time_sec := w.wallTime geom b } }
          , [.resolveBackend backend_name, .buildGeometry geom, .runDriver geom b,
             .transformProblem, .mapHamiltonian, .solveExact, .solveVQE])
      else
        (.error .geometryError,
         [.resolveBackend backend_name, .buildGeometry geom, .runDriver geom b])

/-- One entry of the `curve_data` list built by the dissociation thread:
`{"bond_length": length, "energy": result['energy']}` (app.py line 90). -/
structure CurvePoint where
  bond_length : ℚ
  energy : ℚ
  deriving DecidableEq, Repr

/-- The dictionary stored in `app.state.dissociation_result` (app.py line 98):
it has exactly one key, `"curve_data"`. -/
structure ScanStored where
  curve_data : List CurvePoint
  deriving DecidableEq, Repr

/-- The server state touched by the dissociation scan: the ordered contents of
the asyncio progress queue (`some p` for a `{"progress": p}` update, `none`
for the terminating `None` sentinel) and the process-wide
`app.state.dissociation_result` slot (absent before the first scan
completes). -/
structure ScanState where
  channel : List (Option ℚ)
  slot : Option ScanStored
  deriving DecidableEq, Repr

/-- Server state at startup: empty queue, `app.state.dissociation_result`
attribute not set. -/
def initialState : ScanState := { channel := [], slot := none }

/-- Python's `round` to an integer: round half to even. -/
def pyRound (q : ℚ) : ℤ :=
  let f := q.floor
  if q - (f : ℚ) > 1/2 then f + 1
  else if q - (f : ℚ) < 1/2 then f
  else if 2 ∣ f then f else f + 1

/-- Python's `round(x, 4)` (app.py line 89). -/
def round4 (q : ℚ) : ℚ := (pyRound (q * 10000) : ℚ) / 10000

/-- The coarse grid `np.linspace(0.4, 2.5, 15)` (app.py line 84): 15 evenly
spaced points from 0.4 to 2.5, step (2.5 - 0.4) / 14. -/
def bond_lengths : List ℚ :=
  (List.range 15).map (fun i => 2/5 + (i : ℚ) * ((5/2 - 2/5) / 14))

/-- The loop body of `dissociation_calculation_thread` (app.py lines 87-94),
iterated over the enumerated remaining grid points.  Each iteration calls
`run_vqe_calculation(molecule, round(length, 4), basis, 'simulator')`, appends
`{"bond_length": length, "energy": ...}` to the accumulating curve and puts
`{"progress": ((i + 1) / total_points) * 100}` on the queue.  There is no
per-point exception handler: a failing point returns immediately with the
flag `false` (the exception propagates out of the thread), leaving the state
as accumulated so far. -/
def scanPoints (w : World) (molecule : String) (basis : String) (total : Nat) :
    List (Nat × ℚ) → List CurvePoint → ScanState → ScanState × List CurvePoint × Bool
  | [], curve, st => (st, curve, true)
  | (i, length) :: rest, curve, st =>
    match (run_vqe_calculation w molecule (round4 length) basis "simulator").1 with
    | .error _ => (st, curve, false)
    | .ok result =>
      scanPoints w molecule basis total rest
        (curve ++ [{ bond_length := length, energy := result.energy }])
        { st with channel := st.channel ++ [some (((i : ℚ) + 1) / (total : ℚ) * 100)] }

/-- Embedding of `dissociation_calculation_thread` (app.py lines 80-99) acting
on the server state.  On completion of all 15 points it puts the `None`
sentinel on the queue and overwrites `app.state.dissociation_result` with
`{"curve_data": curve_data}`; if any point raises, the thread dies there:
no sentinel is sent and the slot is left untouched. -/
def dissociation_calculation_thread (w : World) (molecule basis : String)
    (st : ScanState) : ScanState :=
  match scanPoints w molecule basis bond_lengths.length bond_lengths.enum [] st with
  | (st1, curve_data, true) =>
    { channel := st1.channel ++ [none], slot := some { curve_data := curve_data } }
  | (st1, _, false) => st1

/-- The default returned by
`getattr(app.state, "dissociation_result", {"curve_data": []})` (app.py
line 111) when no scan has completed yet. -/
def emptyScanStored : ScanStored := { curve_data := [] }

/-- Embedding of the `/api/dissociation-results` handler
`get_dissociation_results` (app.py lines 108-111): a pure read of the slot
with the empty-curve default. -/
def get_dissociation_results (st : ScanState) : ScanStored :=
  st.slot.getD emptyScanStored

/-- Operations a caller can perform against the server state: start a scan
(`POST /api/dissociation-curve`, run to completion) or poll
(`GET /api/dissociation-results`, which does not modify state). -/
inductive ServerOp
  | scanCurve (molecule basis : String)
  | poll
  deriving DecidableEq, Repr

/-- Effect of one server operation on the scan state. -/
def applyOp (w : World) (st : ScanState) : ServerOp → ScanState
  | .scanCurve molecule basis => dissociation_calculation_thread w molecule basis st
  | .poll => st

/-- Effect of a sequence of server operations. -/
def applyOps (w : World) (ops : List ServerOp) (st : ScanState) : ScanState :=
  ops.foldl (applyOp w) st

/-- The server state at a per-coarse-point boundary during a running scan:
the state after the first `k` grid points have been processed (justified
against the full thread by `scanPoints_append`). -/
def scanStateAfter (w : World) (molecule basis : String) (st : ScanState)
    (k : Nat) : ScanState :=
  (scanPoints w molecule basis bond_lengths.length (bond_lengths.enum.take k) [] st).1

/-- ScanResult as the specification describes it (spec §3): the coarse curve
plus an optional refined (bond_length, energy) pair from the local refinement
phase. -/
structure ScanResultSpec where
  curve : List CurvePoint
  refined : Option CurvePoint
  deriving DecidableEq, Repr

/-- Reading of the stored scan dictionary as the specification's ScanResult:
the stored dictionary `{"curve_data": curve_data}` carries only the coarse
curve and no refined-point key, so the spec's optional refined pair is
absent. -/
def toSpecResult (s : ScanStored) : ScanResultSpec :=
  { curve := s.curve_data, refined := none }

/-- Geometry branch of `qbit.compute_min_ground_state_energy` (qbit.py
lines 19-28). -/
def qbitGeom (molecule : String) (bond_distance : ℚ) : Option AtomGeom :=
  if molecule = "H2" then some (.h2 bond_distance)
  else if molecule = "LiH" then some (.lih bond_distance)
  else if molecule = "HF" then some (.hf bond_distance)
  else if molecule = "H2O" then some (.h2o bond_distance)
  else none

/-- Embedding of the loop of `qbit.compute_min_ground_state_energy` (qbit.py
lines 10-72) with the ground-state eigensolver as oracle `E`: tracks the
strict minimum energy seen so far together with its bond distance, starting
from `min_energy = inf` (accumulator `none`); an unsupported molecule raises
at the first iteration reaching the geometry branch. -/
def compute_min_ground_state_energy (E : AtomGeom → ℚ) (molecule : String) :
    List ℚ → Option (ℚ × ℚ) → Except EngineError (Option (ℚ × ℚ))
  | [], best => .ok best
  | d :: rest, best =>
    match qbitGeom molecule d with
    | none => .error .unsupportedMolecule
    | some geom =>
      let energy := E geom
      let best1 := match best with
        | none => some (d, energy)
        | some (bd, be) => if energy < be then some (d, energy) else some (bd, be)
      compute_min_ground_state_energy E molecule rest best1

/-- The list of progress values a fully successful 15-point scan puts on the
queue: `((i + 1) / 15) * 100` for `i = 0, …, 14`. -/
def progressList : List ℚ :=
  (List.range 15).map (fun i => ((i : ℚ) + 1) / 15 * 100)

/-- Decidable equality of `Except` values, needed to evaluate the embedded
operations on concrete inputs. -/
instance {ε α : Type} [DecidableEq ε] [DecidableEq α] :
    DecidableEq (Except ε α) := fun x y =>
  match x, y with
  | .ok a, .ok b => if h : a = b then isTrue (by rw [h]) else isFalse (by simp [h])
  | .ok _, .error _ => isFalse (by simp)
  | .error _, .ok _ => isFalse (by simp)
  | .error e, .error f => if h : e = f then isTrue (by rw [h]) else isFalse (by simp [h])

section Claims

attribute [local semireducible] Rat.add Rat.sub Rat.mul Rat.inv

/-- Unfolding of `scanPoints` on the empty point list. -/
lemma scanPoints_nil (w : World) (m b : String) (t : Nat)
    (curve : List CurvePoint) (st : ScanState) :
    scanPoints w m b t [] curve st = (st, curve, true) := rfl

/-- Unfolding of `scanPoints` on one more point. -/
lemma scanPoints_cons (w : World) (m b : String) (t : Nat) (i : Nat) (len : ℚ)
    (rest : List (Nat × ℚ)) (curve : List CurvePoint) (st : ScanState) :
    scanPoints w m b t ((i, len) :: rest) curve st =
      match (run_vqe_calculation w m (round4 len) b "simulator").1 with
      | .error _ => (st, curve, false)
      | .ok result =>
        scanPoints w m b t rest
          (curve ++ [{ bond_length := len, energy := result.energy }])
          { st with channel := st.channel ++ [some (((i : ℚ) + 1) / (t : ℚ) * 100)] } := rfl

/-- The scan loop never touches the last-result slot: whatever the iteration
does, the slot of the threaded state is the slot it started with. -/
lemma scanPoints_slot (w : World) (m b : String) (t : Nat) :
    ∀ (pts : List (Nat × ℚ)) (curve : List CurvePoint) (st : ScanState),
      ((scanPoints w m b t pts curve st).1).slot = st.slot
  | [], _, _ => rfl
  | (i, len) :: rest, curve, st => by
    rw [scanPoints_cons]
    rcases h : (run_vqe_calculation w m (round4 len) b "simulator").1 with e | result
    · rfl
    · exact scanPoints_slot w m b t rest _ _

/-- Running the scan loop on a concatenation of point lists is running it on
the first list and, if that part fully succeeded, continuing on the second
from the accumulated state. -/
lemma scanPoints_append (w : World) (m b : String) (t : Nat) :
    ∀ (l1 l2 : List (Nat × ℚ)) (curve : List CurvePoint) (st : ScanState),
      scanPoints w m b t (l1 ++ l2) curve st =
        match scanPoints w m b t l1 curve st with
        | (st1, c1, true) => scanPoints w m b t l2 c1 st1
        | (st1, c1, false) => (st1, c1, false)
  | [], l2, curve, st => rfl
  | (i, len) :: rest, l2, curve, st => by
    rw [List.cons_append, scanPoints_cons, scanPoints_cons]
    rcases h : (run_vqe_calculation w m (round4 len) b "simulator").1 with e | result
    · rfl
    · exact scanPoints_append w m b t rest l2 _ _

/-- A fully completed scan loop appended exactly one curve point per input
point. -/
lemma scanPoints_length (w : World) (m b : String) (t : Nat) :
    ∀ (pts : List (Nat × ℚ)) (curve : List CurvePoint) (st st1 : ScanState)
      (c : List CurvePoint),
      scanPoints w m b t pts curve st = (st1, c, true) →
      c.length = curve.length + pts.length
  | [], curve, st, st1, c, h => by
    rw [scanPoints_nil] at h
    simp only [Prod.mk.injEq] at h
    simp [← h.2.1]
  | (i, len) :: rest, curve, st, st1, c, h => by
    rw [scanPoints_cons] at h
    rcases hr : (run_vqe_calculation w m (round4 len) b "simulator").1 with e | result
    · rw [hr] at h
      simp at h
    · rw [hr] at h
      have := scanPoints_length w m b t rest _ _ _ _ h
      simp only [List.length_append, List.length_cons, List.length_nil] at this ⊢
      omega

/-- Characterization of a scan loop in which every point computation succeeds,
with `f` giving the per-point result: the loop completes, appends one
progress message per point and one curve entry per point. -/
lemma scanPoints_ok (w : World) (m b : String) (t : Nat) (f : ℚ → VqeResults) :
    ∀ (pts : List (Nat × ℚ)) (curve : List CurvePoint) (st : ScanState),
      (∀ p ∈ pts, (run_vqe_calculation w m (round4 p.2) b "simulator").1 = .ok (f p.2)) →
      scanPoints w m b t pts curve st =
        ({ st with channel := st.channel
              ++ pts.map (fun p => some (((p.1 : ℚ) + 1) / (t : ℚ) * 100)) },
         curve ++ pts.map (fun p => { bond_length := p.2, energy := (f p.2).energy }),
         true)
  | [], curve, st, _ => by simp [scanPoints_nil]
  | (i, len) :: rest, curve, st, h => by
    rw [scanPoints_cons, h (i, len) (List.mem_cons_self _ _)]
    dsimp only
    rw [scanPoints_ok w m b t f rest _ _
      (fun p hp => h p (List.mem_cons_of_mem _ hp))]
    simp [List.append_assoc]

/-- Mapping a function of the element over an enumerated list forgets the
indices. -/
lemma enumFrom_map_snd {β : Type} (g : ℚ → β) :
    ∀ (k : Nat) (l : List ℚ), (l.enumFrom k).map (fun p => g p.2) = l.map g
  | _, [] => rfl
  | k, x :: xs => by
    simp only [List.enumFrom, List.map_cons]
    rw [enumFrom_map_snd g (k + 1) xs]

/-- Specialization of `enumFrom_map_snd` to `List.enum`. -/
lemma enum_map_snd {β : Type} (g : ℚ → β) (l : List ℚ) :
    l.enum.map (fun p => g p.2) = l.map g := by
  rw [show l.enum = l.enumFrom 0 from rfl]
  exact enumFrom_map_snd g 0 l

/-- A dissociation scan in which every grid point succeeds (with `f` giving
the per-point engine result): the queue receives one progress update per grid
point followed by the `None` sentinel, and the slot is overwritten with the
full 15-point curve. -/
lemma thread_ok (w : World) (molecule basis : String) (st : ScanState)
    (f : ℚ → VqeResults)
    (h : ∀ bl ∈ bond_lengths,
      (run_vqe_calculation w molecule (round4 bl) basis "simulator").1 = .ok (f bl)) :
    dissociation_calculation_thread w molecule basis st =
      { channel := st.channel
          ++ bond_lengths.enum.map
              (fun p => some (((p.1 : ℚ) + 1) / (bond_lengths.length : ℚ) * 100))
          ++ [none]
        slot := some { curve_data :=
          bond_lengths.map (fun bl => { bond_length := bl, energy := (f bl).energy }) } } := by
  have hmem : ∀ p ∈ bond_lengths.enum, p.2 ∈ bond_lengths := by decide
  have h2 : ∀ p ∈ bond_lengths.enum,
      (run_vqe_calculation w molecule (round4 p.2) basis "simulator").1 = .ok (f p.2) :=
    fun p hp => h p.2 (hmem p hp)
  unfold dissociation_calculation_thread
  rw [scanPoints_ok w molecule basis bond_lengths.length f bond_lengths.enum [] st h2]
  have hcurve := enum_map_snd
      (fun bl => ({ bond_length := bl, energy := (f bl).energy } : CurvePoint)) bond_lengths
  simp [hcurve, List.append_assoc]

/-- Polling does not change the server state, so any sequence of polls leaves
it fixed. -/
lemma applyOps_polls (w : World) :
    ∀ (ops : List ServerOp), (∀ o ∈ ops, o = ServerOp.poll) →
      ∀ st : ScanState, applyOps w ops st = st
  | [], _, st => rfl
  | o :: rest, h, st => by
    have ho : o = ServerOp.poll := h o (List.mem_cons_self _ _)
    subst ho
    show applyOps w rest st = st
    exact applyOps_polls w rest (fun o ho => h o (List.mem_cons_of_mem _ ho)) st

/-- Concrete external world used to evaluate the embedded operations: no
credential in the environment, every geometry accepted by the driver,
constant eigensolver outputs (VQE electronic eigenvalue -3/2, exact
electronic eigenvalue -8/5, nuclear repulsion 1/2). -/
def w0 : World :=
  { token := none
    remoteAvailable := fun _ _ => false
    pyscfOk := fun _ _ => true
    nuclearRepulsion := fun _ _ => 1/2
    vqeEigenvalue := fun _ _ => -3/2
    exactEigenvalue := fun _ _ => -8/5
    convergenceHistory := fun _ _ => [-1, -3/2]
    qubitCount := fun _ _ => 4
    pauliTermCount := fun _ _ => 15
    circuitDepth := fun _ _ => 7
    wallTime := fun _ _ => 2 }

/-- The engine result produced by `w0` at any H2/LiH point: total VQE energy
-3/2 + 1/2 = -1, total exact energy -8/5 + 1/2 = -11/10, error
|-1 + 11/10| * 1000 = 100 mHa. -/
def vr0 : VqeResults :=
  { energy := -1
    exact_energy := -11/10
    convergence := [-1, -3/2]
    error_mHa := 100
    diagnostics :=
      { qubits := 4, pauliTerms := 15, circuitDepth := 7, evaluations := 2
        execution_time_sec := 2 } }

/-- The scan result a fully successful scan under `w0` stores: all 15 grid
points, each with energy -1. -/
def r0 : ScanStored :=
  { curve_data := bond_lengths.map (fun bl => { bond_length := bl, energy := -1 }) }

/-- World identical to `w0` except that the electronic-structure driver
rejects exactly the first grid geometry (H2 at bond length 0.4); every other
point would succeed. -/
def w1 : World :=
  { w0 with pyscfOk := fun g _ => decide (g ≠ AtomGeom.h2 (2/5)) }

/-- C1: for a scan of molecule "H2" over the fixed 15-point coarse grid
between 0.4 and 2.5 in which every point succeeds, the progress channel
receives exactly 15 progress updates, one per coarse point, strictly
increasing, the last exactly 100, followed by the terminating sentinel. -/
theorem c1_scan_progress_updates (w : World) (basis : String) (st : ScanState)
    (f : ℚ → VqeResults)
    (h : ∀ bl ∈ bond_lengths,
      (run_vqe_calculation w "H2" (round4 bl) basis "simulator").1 = .ok (f bl)) :
    (dissociation_calculation_thread w "H2" basis st).channel
        = st.channel ++ progressList.map some ++ [none]
      ∧ progressList.length = 15
      ∧ progressList.Pairwise (· < ·)
      ∧ progressList.getLast? = some 100 := by
  refine ⟨?_, by decide, by decide, by decide⟩
  rw [thread_ok w "H2" basis st f h]
  have hmsgs : bond_lengths.enum.map
      (fun p => some (((p.1 : ℚ) + 1) / (bond_lengths.length : ℚ) * 100))
      = progressList.map some := by decide
  simp [hmsgs, List.append_assoc]

/-- Witness for C1 at the concrete world `w0`. -/
theorem c1_scan_progress_updates_witness :
    (dissociation_calculation_thread w0 "H2" "sto3g" initialState).channel
        = initialState.channel ++ progressList.map some ++ [none]
      ∧ progressList.length = 15
      ∧ progressList.Pairwise (· < ·)
      ∧ progressList.getLast? = some 100 :=
  c1_scan_progress_updates w0 "sto3g" initialState (fun _ => vr0) (by decide)

/-- C2 counterexample: requesting the unsupported molecule "XeF2" with the
"simulator" backend does fail with `UnsupportedMolecule`, but the backend
resolver IS invoked during the call, contrary to the claim that it is never
invoked. -/
theorem c2_counterexample :
    (run_vqe_calculation w0 "XeF2" 1 "sto3g" "simulator").1
        = .error .unsupportedMolecule
      ∧ Effect.resolveBackend "simulator"
          ∈ (run_vqe_calculation w0 "XeF2" 1 "sto3g" "simulator").2 := by decide

/-- C2 amended: for every unregistered molecule identifier and every bond
length and basis, whenever backend resolution succeeds the compute operation
fails with `UnsupportedMolecule`; the backend resolver is always invoked
first (the resolution precedes the molecule lookup in `run_vqe_calculation`). -/
theorem c2_unsupported_molecule (w : World) (molecule_name : String)
    (bond_length : ℚ) (basis backend_name : String) (bk : Backend)
    (hm1 : molecule_name ≠ "H2") (hm2 : molecule_name ≠ "LiH")
    (hres : get_backend w backend_name = .ok bk) :
    (run_vqe_calculation w molecule_name bond_length basis backend_name).1
        = .error .unsupportedMolecule
      ∧ Effect.resolveBackend backend_name
          ∈ (run_vqe_calculation w molecule_name bond_length basis backend_name).2 := by
  unfold run_vqe_calculation
  rw [hres]
  unfold moleculeSetup
  rw [if_neg hm1, if_neg hm2]
  exact ⟨rfl, by simp⟩

/-- Witness for the amended C2 at the concrete input ("XeF2", 1.0, "sto3g",
"simulator"). -/
theorem c2_unsupported_molecule_witness :
    (run_vqe_calculation w0 "XeF2" 1 "sto3g" "simulator").1
        = .error .unsupportedMolecule
      ∧ Effect.resolveBackend "simulator"
          ∈ (run_vqe_calculation w0 "XeF2" 1 "sto3g" "simulator").2 :=
  c2_unsupported_molecule w0 "XeF2" 1 "sto3g" "simulator" .aerSimulator
    (by decide) (by decide) (by decide)

/-- C3 counterexample: under `w1` the first coarse point (H2 at 0.4) fails
while the second (and every later) point would succeed, yet the scan thread
ends with the state unchanged: no progress update for any remaining point,
no sentinel, no stored result.  The failing point is not excluded and the
scan does not continue. -/
theorem c3_counterexample :
    (run_vqe_calculation w1 "H2" (round4 (2/5)) "sto3g" "simulator").1
        = .error .geometryError
      ∧ (run_vqe_calculation w1 "H2" (round4 (11/20)) "sto3g" "simulator").1 = .ok vr0
      ∧ dissociation_calculation_thread w1 "H2" "sto3g" initialState = initialState := by
  decide

/-- C3 amended: if the energy computation at a coarse point fails, the
exception propagates out of the scan thread: the preceding points' progress
updates are the only queue traffic, no later point is computed, no sentinel
is emitted, and the stored result slot is left exactly as it was. -/
theorem c3_point_failure_aborts_scan (w : World) (molecule basis : String)
    (st : ScanState) (pre post : List (Nat × ℚ)) (i : Nat) (len : ℚ)
    (f : ℚ → VqeResults) (e : EngineError)
    (hsplit : bond_lengths.enum = pre ++ (i, len) :: post)
    (hpre : ∀ p ∈ pre,
      (run_vqe_calculation w molecule (round4 p.2) basis "simulator").1 = .ok (f p.2))
    (hfail : (run_vqe_calculation w molecule (round4 len) basis "simulator").1 = .error e) :
    dissociation_calculation_thread w molecule basis st
      = { channel := st.channel
            ++ pre.map (fun p => some (((p.1 : ℚ) + 1) / (bond_lengths.length : ℚ) * 100))
          slot := st.slot } := by
  unfold dissociation_calculation_thread
  rw [hsplit, scanPoints_append,
    scanPoints_ok w molecule basis bond_lengths.length f pre [] st hpre]
  dsimp only
  rw [scanPoints_cons, hfail]

/-- Witness for the amended C3: under `w1` the very first grid point fails
(`pre = []`), so the thread returns with empty queue traffic and untouched
slot. -/
theorem c3_point_failure_aborts_scan_witness :
    dissociation_calculation_thread w1 "H2" "sto3g" initialState
      = { channel := initialState.channel
            ++ ([] : List (Nat × ℚ)).map
                (fun p => some (((p.1 : ℚ) + 1) / (bond_lengths.length : ℚ) * 100))
          slot := initialState.slot } :=
  c3_point_failure_aborts_scan w1 "H2" "sto3g" initialState
    [] (bond_lengths.enum.drop 1) 0 (2/5) (fun _ => vr0) .geometryError
    (by decide) (by decide) (by decide)

/-- C4: every successful result of `run_vqe_calculation` reports
`error_mHa` equal to exactly `abs(energy - exact_energy) * 1000`. -/
theorem c4_error_mHa_exact (w : World) (molecule_name : String) (bond_length : ℚ)
    (basis backend_name : String) (r : VqeResults)
    (h : (run_vqe_calculation w molecule_name bond_length basis backend_name).1 = .ok r) :
    r.error_mHa = |r.energy - r.exact_energy| * 1000 := by
  unfold run_vqe_calculation at h
  rcases hb : get_backend w backend_name with e | bk
  · rw [hb] at h
    simp at h
  · rw [hb] at h
    rcases hm : moleculeSetup molecule_name bond_length with - | ⟨geom, ne, no⟩
    · rw [hm] at h
      simp at h
    · rw [hm] at h
      dsimp only at h
      by_cases hp : w.pyscfOk geom basis.toLower
      · rw [if_pos hp] at h
        simp only [Except.ok.injEq] at h
        rw [← h]
      · rw [if_neg hp] at h
        simp at h

/-- Witness for C4 at the concrete input (w0, "H2", 1.0, "sto3g",
"simulator"). -/
theorem c4_error_mHa_exact_witness :
    vr0.error_mHa = |vr0.energy - vr0.exact_energy| * 1000 :=
  c4_error_mHa_exact w0 "H2" 1 "sto3g" "simulator" vr0 (by decide)

/-- C5: requesting any non-"simulator" backend with no credential in the
environment fails with `CredentialMissing`, and the only effect performed is
the backend resolution itself: no geometry is formatted, the
electronic-structure driver never runs, and no Hamiltonian work happens. -/
theorem c5_credential_fail_fast (w : World) (molecule_name : String)
    (bond_length : ℚ) (basis backend_name : String)
    (hbk : backend_name ≠ "simulator") (htok : w.token = none) :
    run_vqe_calculation w molecule_name bond_length basis backend_name
        = (.error .credentialMissing, [.resolveBackend backend_name])
      ∧ ∀ (g : AtomGeom) (bs : String),
          Effect.buildGeometry g
              ∉ (run_vqe_calculation w molecule_name bond_length basis backend_name).2
          ∧ Effect.runDriver g bs
              ∉ (run_vqe_calculation w molecule_name bond_length basis backend_name).2 := by
  have heq : run_vqe_calculation w molecule_name bond_length basis backend_name
      = (.error .credentialMissing, [.resolveBackend backend_name]) := by
    unfold run_vqe_calculation get_backend
    rw [if_neg hbk, htok]
  refine ⟨heq, fun g bs => ?_⟩
  rw [heq]
  simp

/-- Witness for C5 at the concrete input (w0, "H2", 1.0, "sto3g",
"ibm_brisbane"): `w0` has no token set. -/
theorem c5_credential_fail_fast_witness :
    run_vqe_calculation w0 "H2" 1 "sto3g" "ibm_brisbane"
        = (.error .credentialMissing, [.resolveBackend "ibm_brisbane"])
      ∧ ∀ (g : AtomGeom) (bs : String),
          Effect.buildGeometry g
              ∉ (run_vqe_calculation w0 "H2" 1 "sto3g" "ibm_brisbane").2
          ∧ Effect.runDriver g bs
              ∉ (run_vqe_calculation w0 "H2" 1 "sto3g" "ibm_brisbane").2 :=
  c5_credential_fail_fast w0 "H2" 1 "sto3g" "ibm_brisbane" (by decide) rfl

/-- C6 counterexample: a fully completed scan (its stored curve has all 15
coarse points) whose returned result carries no refined point at all — the
stored dictionary has only the `curve_data` key, so under the spec's
ScanResult shape the refined pair is absent. -/
theorem c6_counterexample :
    (get_dissociation_results
        (dissociation_calculation_thread w0 "H2" "sto3g" initialState)).curve_data.length = 15
      ∧ (toSpecResult (get_dissociation_results
          (dissociation_calculation_thread w0 "H2" "sto3g" initialState))).refined = none := by
  decide

/-- C6 amended: every completed scan returns exactly the coarse curve (one
(bond_length, energy) pair per coarse point, in grid order); no refined
point is produced — the code has no refinement phase, so the spec's optional
refined pair is always absent. -/
theorem c6_scan_returns_only_coarse_curve (w : World) (molecule basis : String)
    (st : ScanState) (f : ℚ → VqeResults)
    (h : ∀ bl ∈ bond_lengths,
      (run_vqe_calculation w molecule (round4 bl) basis "simulator").1 = .ok (f bl)) :
    (dissociation_calculation_thread w molecule basis st).slot
        = some { curve_data :=
            bond_lengths.map (fun bl => { bond_length := bl, energy := (f bl).energy }) }
      ∧ ∀ r : ScanStored,
          (dissociation_calculation_thread w molecule basis st).slot = some r →
          (toSpecResult r).refined = none := by
  rw [thread_ok w molecule basis st f h]
  exact ⟨rfl, fun r _ => rfl⟩

/-- Witness for the amended C6 at the concrete world `w0`. -/
theorem c6_scan_returns_only_coarse_curve_witness :
    (dissociation_calculation_thread w0 "H2" "sto3g" initialState).slot
        = some { curve_data :=
            bond_lengths.map (fun bl => { bond_length := bl, energy := ((fun _ => vr0) bl).energy }) }
      ∧ ∀ r : ScanStored,
          (dissociation_calculation_thread w0 "H2" "sto3g" initialState).slot = some r →
          (toSpecResult r).refined = none :=
  c6_scan_returns_only_coarse_curve w0 "H2" "sto3g" initialState (fun _ => vr0) (by decide)

/-- C7: after a scan completes with stored result `r`, any number of polls
returns exactly `r` each time: polling does not modify the state, and only a
later scan can overwrite the slot. -/
theorem c7_get_scan_result_idempotent (w : World) (molecule basis : String)
    (st : ScanState) (r : ScanStored) (ops : List ServerOp)
    (hdone : (dissociation_calculation_thread w molecule basis st).slot = some r)
    (hpoll : ∀ o ∈ ops, o = ServerOp.poll) :
    get_dissociation_results
        (applyOps w ops (dissociation_calculation_thread w molecule basis st)) = r := by
  rw [applyOps_polls w ops hpoll]
  unfold get_dissociation_results
  rw [hdone]
  rfl

/-- Witness for C7: two successive polls after a completed scan under `w0`
both return the stored 15-point result `r0`. -/
theorem c7_get_scan_result_idempotent_witness :
    get_dissociation_results
        (applyOps w0 [ServerOp.poll, ServerOp.poll]
          (dissociation_calculation_thread w0 "H2" "sto3g" initialState)) = r0 :=
  c7_get_scan_result_idempotent w0 "H2" "sto3g" initialState r0
    [ServerOp.poll, ServerOp.poll] (by decide) (by decide)

/-- C8: polling before any scan has completed returns the explicit
empty-curve default (the "not yet available" state), and that value is
distinguishable from every completed scan result, because a completed scan
always stores exactly 15 curve points.  `get_dissociation_results` is a
total pure read: it cannot block. -/
theorem c8_not_yet_available (w : World) (molecule basis : String)
    (st : ScanState) (r : ScanStored) (hnone : st.slot = none)
    (hdone : (dissociation_calculation_thread w molecule basis st).slot = some r) :
    get_dissociation_results st = emptyScanStored
      ∧ r.curve_data.length = 15
      ∧ r ≠ emptyScanStored := by
  have h1 : get_dissociation_results st = emptyScanStored := by
    unfold get_dissociation_results
    rw [hnone]
    rfl
  unfold dissociation_calculation_thread at hdone
  rcases hsp : scanPoints w molecule basis bond_lengths.length bond_lengths.enum [] st
    with ⟨st1, curve, flag⟩
  rw [hsp] at hdone
  cases flag with
  | false =>
    exfalso
    have hslot := scanPoints_slot w molecule basis bond_lengths.length bond_lengths.enum [] st
    rw [hsp] at hslot
    dsimp only at hdone hslot
    rw [hslot, hnone] at hdone
    exact Option.noConfusion hdone
  | true =>
    dsimp only at hdone
    simp only [Option.some.injEq] at hdone
    have hlen := scanPoints_length w molecule basis bond_lengths.length
      bond_lengths.enum [] st st1 curve hsp
    have hlen15 : curve.length = 15 := by
      rw [hlen]
      decide
    have hr : r.curve_data = curve := by rw [← hdone]
    refine ⟨h1, by rw [hr]; exact hlen15, ?_⟩
    intro hcontra
    rw [hcontra] at hr
    rw [← hr] at hlen15
    exact absurd hlen15 (by decide)

/-- Witness for C8 at the concrete world `w0`, starting from the initial
server state. -/
theorem c8_not_yet_available_witness :
    get_dissociation_results initialState = emptyScanStored
      ∧ r0.curve_data.length = 15
      ∧ r0 ≠ emptyScanStored :=
  c8_not_yet_available w0 "H2" "sto3g" initialState r0 rfl (by decide)

/-- Credential irrelevance of a single simulator-backend point computation:
`run_vqe_calculation` with backend "simulator" never reads the token or the
remote-device table. -/
lemma run_vqe_credential_irrel (w : World) (tok : Option String)
    (ra : String → String → Bool) (m : String) (bl : ℚ) (b : String) :
    run_vqe_calculation { w with token := tok, remoteAvailable := ra } m bl b "simulator"
      = run_vqe_calculation w m bl b "simulator" := rfl

/-- Credential irrelevance of the whole scan loop. -/
lemma scanPoints_credential_irrel (w : World) (tok : Option String)
    (ra : String → String → Bool) (m b : String) (t : Nat) :
    ∀ (pts : List (Nat × ℚ)) (curve : List CurvePoint) (st : ScanState),
      scanPoints { w with token := tok, remoteAvailable := ra } m b t pts curve st
        = scanPoints w m b t pts curve st
  | [], _, _ => rfl
  | (i, len) :: rest, curve, st => by
    rw [scanPoints_cons, scanPoints_cons, run_vqe_credential_irrel]
    rcases h : (run_vqe_calculation w m (round4 len) b "simulator").1 with e | result
    · rfl
    · exact scanPoints_credential_irrel w tok ra m b t rest _ _

/-- C9: the dissociation scan evaluates every coarse point on the local
simulator backend regardless of environment: its outcome is identical for
every credential and remote-availability configuration, and resolving the
"simulator" backend always succeeds locally without a credential. -/
theorem c9_scan_uses_local_simulator (w : World) (tok : Option String)
    (ra : String → String → Bool) (molecule basis : String) (st : ScanState) :
    dissociation_calculation_thread { w with token := tok, remoteAvailable := ra }
        molecule basis st
      = dissociation_calculation_thread w molecule basis st
    ∧ get_backend { w with token := tok, remoteAvailable := ra } "simulator"
      = .ok .aerSimulator := by
  constructor
  · unfold dissociation_calculation_thread
    rw [scanPoints_credential_irrel]
  · rfl

/-- C10: at every per-coarse-point boundary during a running scan, the stored
last-scan-result slot holds exactly what it held before the scan started, so
a mid-scan poll returns the pre-scan value (the previous result or the
initial empty state), never a partially built curve. -/
theorem c10_slot_unchanged_mid_scan (w : World) (molecule basis : String)
    (st : ScanState) (k : Nat) :
    (scanStateAfter w molecule basis st k).slot = st.slot
      ∧ get_dissociation_results (scanStateAfter w molecule basis st k)
          = get_dissociation_results st := by
  have h : (scanStateAfter w molecule basis st k).slot = st.slot := by
    unfold scanStateAfter
    exact scanPoints_slot w molecule basis bond_lengths.length
      (bond_lengths.enum.take k) [] st
  refine ⟨h, ?_⟩
  unfold get_dissociation_results
  rw [h]

end Claims

end QubitQuests
